import Mathlib

/-!
# Microsoft.Launcher module shim (`dllmain.cpp`)

A shallow embedding of the `Microsoft_Launcher` class of
`src/modules/launcher/Microsoft.Launcher/dllmain.cpp`.

* The object's fields become the record `ModuleState`; every member function
  becomes a function taking the state and returning the new state.
* Calls into the operating system are answered by an `Env` record (one field
  per API function the class calls) and are recorded, in program order, in a
  list of `Effect`s.
* The settings payload is a JSON object; the accessors that throw in the
  source return `none` here and the `try`/`catch` of `parse_hotkey` is an
  explicit `Completion`.
-/

set_option linter.unusedVariables false

namespace Launcher

/-! ## Windows constants and handles -/

/-- A Windows `HANDLE`; the null handle is `0`. -/
abbrev Handle := Nat

def NULL : Handle := 0

def WAIT_OBJECT_0 : Nat := 0
def WAIT_TIMEOUT : Nat := 0x102
def WAIT_FAILED : Nat := 0xFFFFFFFF

def PROCESS_TERMINATE : Nat := 0x0001
def PROCESS_QUERY_INFORMATION : Nat := 0x0400
def SYNCHRONIZE : Nat := 0x00100000

/-- The value of `sizeof(DWORD)`. -/
def SIZEOF_DWORD : Nat := 4

/-! ## String constants of the source -/

def POWER_LAUNCHER_PID_SHARED_FILE : String :=
  "Local\\PowerLauncherPidSharedFile-3cbfbad4-199b-4e2c-9825-942d5d3d3c74"
def JSON_KEY_PROPERTIES : String := "properties"
def JSON_KEY_WIN : String := "win"
def JSON_KEY_ALT : String := "alt"
def JSON_KEY_CTRL : String := "ctrl"
def JSON_KEY_SHIFT : String := "shift"
def JSON_KEY_CODE : String := "code"
def JSON_KEY_OPEN_POWERLAUNCHER : String := "open_powerlauncher"

def LOG_ENABLING : String := "Launcher is enabling"
def LOG_DISABLING : String := "Launcher is disabling"
def LOG_NOT_TERMINATED : String := "Launcher process was not terminated. \x7b\x7d"
def POWER_LAUNCHER_EXE : String := "modules\\launcher\\PowerLauncher.exe"

/-! ## Data model -/

/-- Modelled from the spec: the `Hotkey` record of the module interface header
(`interface/powertoy_module_interface.h`, not part of the sources at hand):
the four modifier flags and the virtual key code, which the source treats as an
`unsigned char`. -/
structure Hotkey where
  win : Bool
  ctrl : Bool
  shift : Bool
  alt : Bool
  key : Nat
  deriving DecidableEq, Repr

/-- The fields of `Microsoft_Launcher` that the lifecycle callbacks read or write. -/
structure ModuleState where
  m_enabled : Bool
  m_hProcess : Handle
  m_hotkey : Hotkey
  m_hEvent : Handle
  deriving DecidableEq, Repr

/-- One call that leaves the module, in the order the source makes them. -/
inductive Effect where
  | logInfo (msg : String)
  | logError (msg : String)
  | resetEvent (h : Handle)
  | setEvent (h : Handle)
  | shellExecuteEx (file : String) (params : String)
  | createFileMapping (name : String) (size : Nat)
  | mapViewOfFile (h : Handle) (size : Nat)
  | writePid (v : Nat)
  | runNonElevated (path : String) (params : String)
  | sleep (ms : Nat)
  | readPid (v : Nat)
  | openProcess (access : Nat) (inherit : Bool) (pid : Nat)
  | closeHandle (h : Handle)
  | waitForSingleObject (h : Handle) (ms : Nat)
  | getProcessId (h : Handle)
  | terminateProcess (h : Handle) (exitCode : Nat)
  | getLastError
  deriving DecidableEq, Repr

/-- The answers of the operating system and of the helpers declared in headers
outside `dllmain.cpp` (`UseNewSettings`, `is_process_elevated`,
`get_module_folderpath`, `run_non_elevated`).  `pidRead k` is the value seen by
the read of `*pidBuffer` in loop iteration `k` (counted from 0). -/
structure Env where
  useNewSettings : Bool
  currentProcessId : Nat
  isProcessElevated : Bool
  shellExecuteEx : String → String → Handle
  moduleFolderPath : String
  createFileMapping : String → Nat → Handle
  mapViewOfFile : Handle → Nat → Bool
  runNonElevated : String → String → Bool
  pidRead : Nat → Nat
  openProcess : Nat → Bool → Nat → Handle
  waitForSingleObject : Handle → Nat → Nat
  terminateProcess : Handle → Nat → Bool

/-! ## JSON payload -/

/-- A JSON value as held by `Windows.Data.Json`.  A number is a `double` there;
it is a rational here, which is exact for every finite `double`. -/
inductive JsonValue where
  | null
  | boolean (b : Bool)
  | number (n : ℚ)
  | string (s : String)
  | array (items : List JsonValue)
  | object (fields : List (String × JsonValue))

/-- A JSON object: its members in order. -/
abbrev JsonObject := List (String × JsonValue)

/-- Member lookup by name. -/
def lookupMember : JsonObject → String → Option JsonValue
  | [], _ => none
  | (k, v) :: rest, name => if k = name then some v else lookupMember rest name

/-- `JsonObject::GetNamedObject`: throws (`none`) when the member is missing or
is not an object. -/
def GetNamedObject (o : JsonObject) (name : String) : Option JsonObject :=
  match lookupMember o name with
  | some (.object fields) => some fields
  | _ => none

/-- `JsonObject::GetNamedBoolean`: throws (`none`) when the member is missing or
is not a boolean. -/
def GetNamedBoolean (o : JsonObject) (name : String) : Option Bool :=
  match lookupMember o name with
  | some (.boolean b) => some b
  | _ => none

/-- `JsonObject::GetNamedNumber`: throws (`none`) when the member is missing or
is not a number. -/
def GetNamedNumber (o : JsonObject) (name : String) : Option ℚ :=
  match lookupMember o name with
  | some (.number n) => some n
  | _ => none

/-- Truncation toward zero, the first step of a floating to integral conversion. -/
def truncToInt (d : ℚ) : Int :=
  if 0 ≤ d then Int.floor d else Int.ceil d

/-- `static_cast<unsigned char>(d)`: the fractional part is discarded.  For a
truncated value in `0..255` that value is the result.  Outside that range the
conversion is undefined in C++; the embedding keeps the low eight bits, as the
code MSVC generates does. -/
def static_cast_uchar (d : ℚ) : Nat :=
  (truncToInt d % 256).toNat

/-- How a block of code was left. -/
inductive Completion where
  | returned
  | threw
  deriving DecidableEq, Repr

/-! ## Member functions -/

/-- The `try` block of `parse_hotkey`: the assignments made before a throwing
accessor stay in place. -/
def parse_hotkey_try (settings : JsonObject) (hk : Hotkey) : Hotkey × Completion :=
  match GetNamedObject settings JSON_KEY_PROPERTIES with
  | none => (hk, .threw)
  | some props =>
  match GetNamedObject props JSON_KEY_OPEN_POWERLAUNCHER with
  | none => (hk, .threw)
  | some jsonHotkeyObject =>
  match GetNamedBoolean jsonHotkeyObject JSON_KEY_WIN with
  | none => (hk, .threw)
  | some w =>
  let hk1 := { hk with win := w }
  match GetNamedBoolean jsonHotkeyObject JSON_KEY_ALT with
  | none => (hk1, .threw)
  | some a =>
  let hk2 := { hk1 with alt := a }
  match GetNamedBoolean jsonHotkeyObject JSON_KEY_SHIFT with
  | none => (hk2, .threw)
  | some sh =>
  let hk3 := { hk2 with shift := sh }
  match GetNamedBoolean jsonHotkeyObject JSON_KEY_CTRL with
  | none => (hk3, .threw)
  | some c =>
  let hk4 := { hk3 with ctrl := c }
  match GetNamedNumber jsonHotkeyObject JSON_KEY_CODE with
  | none => (hk4, .threw)
  | some n => ({ hk4 with key := static_cast_uchar n }, .returned)

/-- `Microsoft_Launcher::parse_hotkey`: the `try` block followed by
`catch (...)`, which sets the key code to 0. -/
def parse_hotkey (settings : JsonObject) (hk : Hotkey) : Hotkey × Completion :=
  match parse_hotkey_try settings hk with
  | (hk1, .returned) => (hk1, .returned)
  | (hk1, .threw) => ({ hk1 with key := 0 }, .returned)

/-- The result of `get_hotkeys`: the returned count, the caller buffer and the
module state after the call. -/
structure GetHotkeysResult where
  count : Nat
  hotkeys : Option (List Hotkey)
  state : ModuleState

/-- `Microsoft_Launcher::get_hotkeys`.  The buffer is `none` for a null pointer. -/
def get_hotkeys (s : ModuleState) (hotkeys : Option (List Hotkey)) (buffer_size : Nat) :
    GetHotkeysResult :=
  if s.m_hotkey.key ≠ 0 then
    match hotkeys with
    | some buf =>
      if buffer_size ≥ 1 then ⟨1, some (buf.set 0 s.m_hotkey), s⟩ else ⟨1, some buf, s⟩
    | none => ⟨1, none, s⟩
  else
    ⟨0, hotkeys, s⟩

/-- `Microsoft_Launcher::is_enabled`. -/
def is_enabled (s : ModuleState) : Bool := s.m_enabled

/-- The access mask passed to `OpenProcess`. -/
def OPEN_PROCESS_ACCESS : Nat := PROCESS_TERMINATE ||| PROCESS_QUERY_INFORMATION ||| SYNCHRONIZE

/-- The constant `maxRetries` of `enable`. -/
def maxRetries : Nat := 80

/-- The loop `for (int retry = 0; retry < maxRetries; ++retry)` of `enable`,
with `remaining = maxRetries - retry` iterations left.  Returns the value of
`m_hProcess` after the loop and the calls made. -/
def enable_poll (env : Env) (hProcess : Handle) : (remaining : Nat) → (retry : Nat) →
    Handle × List Effect
  | 0, _ => (hProcess, [])
  | remaining + 1, retry =>
    let pid := env.pidRead retry
    if pid ≠ 0 then
      (env.openProcess OPEN_PROCESS_ACCESS false pid,
        [Effect.sleep 50, Effect.readPid pid,
         Effect.openProcess OPEN_PROCESS_ACCESS false pid])
    else
      let r := enable_poll env hProcess remaining (retry + 1)
      (r.1, Effect.sleep 50 :: Effect.readPid pid :: r.2)

/-- The argument string of the direct launch. -/
def executable_args (powertoys_pid : Nat) : String :=
  " -powerToysPid " ++ toString powertoys_pid ++ " --centralized-kb-hook"

/-- The argument string handed to `run_non_elevated`. -/
def relay_params (powertoys_pid : Nat) : String :=
  "-run-non-elevated " ++ "-target modules\\launcher\\PowerLauncher.exe " ++ "-pidFile " ++
    POWER_LAUNCHER_PID_SHARED_FILE ++ (" -powerToysPid " ++ toString powertoys_pid ++ " ") ++
    "--centralized-kb-hook "

/-- The path of the relay executable. -/
def action_runner_path (env : Env) : String :=
  env.moduleFolderPath ++ "\\action_runner.exe"

/-- The `else` branch of `enable` (the host is elevated): the handshake block,
the relay and the polling loop. -/
def enable_elevated (env : Env) (hProcess : Handle) : Handle × List Effect :=
  let hMapFile := env.createFileMapping POWER_LAUNCHER_PID_SHARED_FILE SIZEOF_DWORD
  let t0 := [Effect.createFileMapping POWER_LAUNCHER_PID_SHARED_FILE SIZEOF_DWORD]
  if hMapFile ≠ NULL then
    let t1 := t0 ++ [Effect.mapViewOfFile hMapFile SIZEOF_DWORD]
    if env.mapViewOfFile hMapFile SIZEOF_DWORD then
      let path := action_runner_path env
      let params := relay_params env.currentProcessId
      let t2 := t1 ++ [Effect.writePid 0, Effect.runNonElevated path params]
      if env.runNonElevated path params then
        let r := enable_poll env NULL maxRetries 0
        (r.1, t2 ++ r.2 ++ [Effect.closeHandle hMapFile])
      else
        (NULL, t2 ++ [Effect.closeHandle hMapFile])
    else
      (hProcess, t1 ++ [Effect.closeHandle hMapFile])
  else
    (hProcess, t0)

/-- The body of `if (UseNewSettings())` in `enable`. -/
def enable_launch (env : Env) (hProcess : Handle) : Handle × List Effect :=
  if !env.isProcessElevated then
    let args := executable_args env.currentProcessId
    (env.shellExecuteEx POWER_LAUNCHER_EXE args, [Effect.shellExecuteEx POWER_LAUNCHER_EXE args])
  else
    enable_elevated env hProcess

/-- `Microsoft_Launcher::enable`. -/
def enable (env : Env) (s : ModuleState) : ModuleState × List Effect :=
  let t0 := [Effect.logInfo LOG_ENABLING, Effect.resetEvent s.m_hEvent]
  if env.useNewSettings then
    let r := enable_launch env s.m_hProcess
    ({ s with m_hProcess := r.1, m_enabled := true }, t0 ++ r.2)
  else
    ({ s with m_enabled := true }, t0)

/-- `Microsoft_Launcher::terminateProcess`. -/
def terminateProcess (env : Env) (s : ModuleState) : ModuleState × List Effect :=
  let t0 := [Effect.getProcessId s.m_hProcess, Effect.terminateProcess s.m_hProcess 1]
  if env.terminateProcess s.m_hProcess 1 = false then
    (s, t0 ++ [Effect.getLastError, Effect.logError LOG_NOT_TERMINATED])
  else
    (s, t0)

/-- `Microsoft_Launcher::disable`. -/
def disable (env : Env) (s : ModuleState) : ModuleState × List Effect :=
  let t0 := [Effect.logInfo LOG_DISABLING]
  if s.m_enabled then
    let r := terminateProcess env s
    ({ r.1 with m_enabled := false }, t0 ++ [Effect.resetEvent s.m_hEvent] ++ r.2)
  else
    ({ s with m_enabled := false }, t0)

/-- The result of `on_hotkey`: the returned flag, the state and the calls made. -/
structure OnHotkeyResult where
  handled : Bool
  state : ModuleState
  trace : List Effect
  deriving DecidableEq, Repr

/-- `Microsoft_Launcher::on_hotkey`. -/
def on_hotkey (env : Env) (s : ModuleState) (hotkeyId : Nat) : OnHotkeyResult :=
  if s.m_enabled then
    let w := [Effect.waitForSingleObject s.m_hProcess 0]
    if env.waitForSingleObject s.m_hProcess 0 = WAIT_OBJECT_0 then
      let r := enable env s
      ⟨true, r.1, w ++ r.2 ++ [Effect.setEvent r.1.m_hEvent]⟩
    else
      ⟨true, s, w ++ [Effect.setEvent s.m_hEvent]⟩
  else
    ⟨false, s, []⟩

/-! ## Vocabulary for statements about traces and payloads -/

/-- Recognises a read of the handshake block. -/
def Effect.isReadPid : Effect → Bool
  | .readPid _ => true
  | _ => false

/-- Recognises a call of `OpenProcess`. -/
def Effect.isOpenProcess : Effect → Bool
  | .openProcess _ _ _ => true
  | _ => false

/-- Recognises a call of `SetEvent`. -/
def Effect.isSetEvent : Effect → Bool
  | .setEvent _ => true
  | _ => false

/-- Recognises a call of `TerminateProcess`. -/
def Effect.isTerminateProcess : Effect → Bool
  | .terminateProcess _ _ => true
  | _ => false

/-- Recognises a call of `ResetEvent`. -/
def Effect.isResetEvent : Effect → Bool
  | .resetEvent _ => true
  | _ => false

/-- The trace of `n` polls that each slept 50 ms and then read 0. -/
def zeroPolls : Nat → List Effect
  | 0 => []
  | n + 1 => Effect.sleep 50 :: Effect.readPid 0 :: zeroPolls n

/-- The calls `enable` makes on the elevated path up to and including the relay
invocation. -/
def handshakePrefix (env : Env) (s : ModuleState) : List Effect :=
  [Effect.logInfo LOG_ENABLING, Effect.resetEvent s.m_hEvent,
   Effect.createFileMapping POWER_LAUNCHER_PID_SHARED_FILE SIZEOF_DWORD,
   Effect.mapViewOfFile (env.createFileMapping POWER_LAUNCHER_PID_SHARED_FILE SIZEOF_DWORD)
     SIZEOF_DWORD,
   Effect.writePid 0,
   Effect.runNonElevated (action_runner_path env) (relay_params env.currentProcessId)]

/-- The elevated path on which the handshake block is created and mapped and the
relay is invoked successfully. -/
def ElevatedHandshakeReady (env : Env) : Prop :=
  env.useNewSettings = true ∧ env.isProcessElevated = true ∧
  env.createFileMapping POWER_LAUNCHER_PID_SHARED_FILE SIZEOF_DWORD ≠ NULL ∧
  env.mapViewOfFile (env.createFileMapping POWER_LAUNCHER_PID_SHARED_FILE SIZEOF_DWORD)
    SIZEOF_DWORD = true ∧
  env.runNonElevated (action_runner_path env) (relay_params env.currentProcessId) = true

instance (env : Env) : Decidable (ElevatedHandshakeReady env) := by
  unfold ElevatedHandshakeReady; infer_instance

/-- A descriptor with no key bound. -/
def exampleHotkeyUnbound : Hotkey := ⟨false, false, false, false, 0⟩

/-- The descriptor of the spec scenario: Win + Space. -/
def exampleHotkeyWinSpace : Hotkey := ⟨true, false, false, false, 32⟩

/-- An elevated host on which every launch step succeeds and the relay publishes
the process id 4242 at the third read of the handshake block. -/
def exampleEnvPublishing : Env where
  useNewSettings := true
  currentProcessId := 1000
  isProcessElevated := true
  shellExecuteEx := fun _ _ => 7
  moduleFolderPath := "C:\\PowerToys"
  createFileMapping := fun _ _ => 5
  mapViewOfFile := fun _ _ => true
  runNonElevated := fun _ _ => true
  pidRead := fun k => if k = 2 then 4242 else 0
  openProcess := fun _ _ pid => pid + 1
  waitForSingleObject := fun h _ => if h = NULL then WAIT_FAILED else WAIT_TIMEOUT
  terminateProcess := fun _ _ => true

/-- The same host, but the relay never publishes a process id. -/
def exampleEnvSilent : Env :=
  { exampleEnvPublishing with pidRead := fun _ => 0 }

/-- The same host, with the tracked process reported as exited. -/
def exampleEnvExited : Env :=
  { exampleEnvPublishing with waitForSingleObject := fun _ _ => WAIT_OBJECT_0 }

/-- A freshly constructed module: disabled, no process, Win + Space bound. -/
def exampleStateDisabled : ModuleState := ⟨false, NULL, exampleHotkeyWinSpace, 9⟩

/-- An enabled module that tracks no process. -/
def exampleStateNoProcess : ModuleState := ⟨true, NULL, exampleHotkeyWinSpace, 9⟩

/-- An enabled module that tracks the process behind handle 4243. -/
def exampleStateWithProcess : ModuleState := ⟨true, 4243, exampleHotkeyWinSpace, 9⟩

/-- True when the member `name` is present and is an object. -/
def JsonObject.hasObject (o : JsonObject) (name : String) : Bool :=
  match lookupMember o name with
  | some (.object _) => true
  | _ => false

/-- True when the member `name` is present and is a boolean. -/
def JsonObject.hasBoolean (o : JsonObject) (name : String) : Bool :=
  match lookupMember o name with
  | some (.boolean _) => true
  | _ => false

/-- True when the member `name` is present and is a number. -/
def JsonObject.hasNumber (o : JsonObject) (name : String) : Bool :=
  match lookupMember o name with
  | some (.number _) => true
  | _ => false

/-- A malformed or partially populated settings payload: `properties` is missing
or is not an object, or `open_powerlauncher` is missing from it or is not an
object, or one of `win`, `alt`, `ctrl`, `shift` is missing or not a boolean, or
`code` is missing or not a number. -/
def malformedHotkeyJson (settings : JsonObject) : Bool :=
  match lookupMember settings JSON_KEY_PROPERTIES with
  | some (.object props) =>
    match lookupMember props JSON_KEY_OPEN_POWERLAUNCHER with
    | some (.object o) =>
      !(JsonObject.hasBoolean o JSON_KEY_WIN && JsonObject.hasBoolean o JSON_KEY_ALT &&
        JsonObject.hasBoolean o JSON_KEY_CTRL && JsonObject.hasBoolean o JSON_KEY_SHIFT &&
        JsonObject.hasNumber o JSON_KEY_CODE)
    | _ => true
  | _ => true

/-- The settings payload of the spec scenario, with the given key code. -/
def exampleSettings (code : ℚ) : JsonObject :=
  [("properties", .object [("open_powerlauncher", .object
    [("win", .boolean true), ("alt", .boolean false), ("ctrl", .boolean false),
     ("shift", .boolean false), ("code", .number code)])])]

/-- A settings payload without the `open_powerlauncher` member. -/
def exampleSettingsNoHotkey : JsonObject :=
  [("properties", .object [("theme", .string "dark")])]

/-- The state left by an `enable` whose handshake timed out. -/
def exampleStateTimedOut : ModuleState := (enable exampleEnvSilent exampleStateDisabled).1

/-! # Properties -/

/-! ## The polling loop -/

theorem zeroPolls_countP_isReadPid (n : Nat) : (zeroPolls n).countP Effect.isReadPid = n := by
  induction n with
  | zero => rfl
  | succ n ih => simp [zeroPolls, Effect.isReadPid, ih]

theorem zeroPolls_countP_sleep (n : Nat) : (zeroPolls n).count (Effect.sleep 50) = n := by
  induction n with
  | zero => rfl
  | succ n ih => simp [zeroPolls, ih]

theorem zeroPolls_countP_isOpenProcess (n : Nat) :
    (zeroPolls n).countP Effect.isOpenProcess = 0 := by
  induction n with
  | zero => rfl
  | succ n ih => simp [zeroPolls, Effect.isOpenProcess, ih]

theorem enable_poll_all_zero (env : Env) (h : Handle) (n : Nat) :
    ∀ r, (∀ j, j < n → env.pidRead (r + j) = 0) →
      enable_poll env h n r = (h, zeroPolls n) := by
  induction n with
  | zero => intro r _; rfl
  | succ n ih =>
    intro r hz
    have h0 : env.pidRead r = 0 := by simpa using hz 0 (Nat.succ_pos n)
    have hrest : ∀ j, j < n → env.pidRead (r + 1 + j) = 0 := by
      intro j hj
      have := hz (j + 1) (Nat.succ_lt_succ hj)
      simpa [Nat.add_assoc, Nat.add_comm 1 j] using this
    simp [enable_poll, h0, ih (r + 1) hrest, zeroPolls]

theorem enable_poll_first_nonzero (env : Env) (h : Handle) (p : Nat) (hp : p ≠ 0) (i : Nat) :
    ∀ n r, i < n → (∀ j, j < i → env.pidRead (r + j) = 0) → env.pidRead (r + i) = p →
      enable_poll env h n r =
        (env.openProcess OPEN_PROCESS_ACCESS false p,
          zeroPolls i ++ [Effect.sleep 50, Effect.readPid p,
            Effect.openProcess OPEN_PROCESS_ACCESS false p]) := by
  induction i with
  | zero =>
    intro n r hn _ hr
    obtain ⟨m, rfl⟩ : ∃ m, n = m + 1 := ⟨n - 1, by omega⟩
    have hr0 : env.pidRead r = p := by simpa using hr
    simp [enable_poll, hr0, hp, zeroPolls]
  | succ i ih =>
    intro n r hn hz hr
    obtain ⟨m, rfl⟩ : ∃ m, n = m + 1 := ⟨n - 1, by omega⟩
    have h0 : env.pidRead r = 0 := by simpa using hz 0 (Nat.succ_pos i)
    have hrest : ∀ j, j < i → env.pidRead (r + 1 + j) = 0 := by
      intro j hj
      have := hz (j + 1) (Nat.succ_lt_succ hj)
      simpa [Nat.add_assoc, Nat.add_comm 1 j] using this
    have hr1 : env.pidRead (r + 1 + i) = p := by
      simpa [Nat.add_assoc, Nat.add_comm 1 i] using hr
    have := ih m (r + 1) (by omega) hrest hr1
    simp [enable_poll, h0, this, zeroPolls]

theorem enable_poll_reads_le (env : Env) (h : Handle) (n : Nat) :
    ∀ r, (enable_poll env h n r).2.countP Effect.isReadPid ≤ n := by
  induction n with
  | zero => intro r; simp [enable_poll]
  | succ n ih =>
    intro r
    by_cases hp : env.pidRead r = 0
    · have := ih (r + 1)
      simp [enable_poll, hp, Effect.isReadPid]
      omega
    · simp [enable_poll, hp, Effect.isReadPid]

theorem enable_poll_no_setEvent (env : Env) (h : Handle) (n : Nat) :
    ∀ r, (enable_poll env h n r).2.countP Effect.isSetEvent = 0 := by
  induction n with
  | zero => intro r; simp [enable_poll]
  | succ n ih =>
    intro r
    by_cases hp : env.pidRead r = 0
    · have := ih (r + 1)
      simp [enable_poll, hp, Effect.isSetEvent] at this ⊢
      exact this
    · simp [enable_poll, hp, Effect.isSetEvent]

/-- On the elevated path with the handshake ready, `enable` is the prefix, the
polling loop and the release of the mapping handle. -/
theorem enable_elevated_ready (env : Env) (s : ModuleState) (hr : ElevatedHandshakeReady env) :
    enable env s =
      ({ s with m_hProcess := (enable_poll env NULL maxRetries 0).1, m_enabled := true },
        handshakePrefix env s ++ (enable_poll env NULL maxRetries 0).2 ++
          [Effect.closeHandle (env.createFileMapping POWER_LAUNCHER_PID_SHARED_FILE
            SIZEOF_DWORD)]) := by
  obtain ⟨h1, h2, h3, h4, h5⟩ := hr
  simp [enable, enable_launch, enable_elevated, handshakePrefix, h1, h2, h3, h4, h5]

/-! ## C6, C7, C10: `enable` -/

theorem enable_sets_flag (env : Env) (s : ModuleState) : (enable env s).1.m_enabled = true := by
  unfold enable
  split <;> rfl

/-- C6: whatever the prior state and whatever the operating system answers during
the launch attempt, `enable` returns with the enabled flag set, so `is_enabled`
is true afterwards; the hotkey descriptor and the event handle are untouched. -/
theorem enable_marks_enabled (env : Env) (s : ModuleState) :
    is_enabled (enable env s).1 = true ∧
    (enable env s).1.m_hotkey = s.m_hotkey ∧
    (enable env s).1.m_hEvent = s.m_hEvent := by
  unfold enable is_enabled
  split <;> simp

/-- C7: on the elevated path with the handshake block created and mapped and the
relay invoked successfully, if every read of the block returns 0 then `enable`
makes exactly 80 polls, each a 50 ms sleep followed by a read, never calls
`OpenProcess`, and ends with a null process handle and the enabled flag set. -/
theorem enable_handshake_timeout (env : Env) (s : ModuleState)
    (hready : ElevatedHandshakeReady env) (hzero : ∀ k, env.pidRead k = 0) :
    (enable env s).2 =
      handshakePrefix env s ++ zeroPolls 80 ++
        [Effect.closeHandle (env.createFileMapping POWER_LAUNCHER_PID_SHARED_FILE
          SIZEOF_DWORD)] ∧
    (enable env s).2.countP Effect.isReadPid = 80 ∧
    (enable env s).2.count (Effect.sleep 50) = 80 ∧
    (enable env s).2.countP Effect.isOpenProcess = 0 ∧
    (enable env s).1.m_hProcess = NULL ∧
    (enable env s).1.m_enabled = true := by
  have hpoll : enable_poll env NULL maxRetries 0 = (NULL, zeroPolls 80) :=
    enable_poll_all_zero env NULL maxRetries 0 (fun j _ => hzero (0 + j))
  rw [enable_elevated_ready env s hready, hpoll]
  refine ⟨rfl, ?_, ?_, ?_, rfl, rfl⟩
  · simp [List.countP_append, zeroPolls_countP_isReadPid, handshakePrefix, Effect.isReadPid]
  · simp [List.count_append, zeroPolls_countP_sleep, handshakePrefix]
  · simp [List.countP_append, zeroPolls_countP_isOpenProcess, handshakePrefix,
      Effect.isOpenProcess]

theorem enable_handshake_timeout_witness :
    (enable exampleEnvSilent exampleStateDisabled).2.countP Effect.isReadPid = 80 ∧
    (enable exampleEnvSilent exampleStateDisabled).1.m_hProcess = NULL :=
  have h := enable_handshake_timeout exampleEnvSilent exampleStateDisabled
    (by decide) (fun _ => rfl)
  ⟨h.2.1, h.2.2.2.2.1⟩

/-- C10: the polling loop of `enable` never reads the handshake block more than
80 times.  On the elevated path with the handshake ready, if the first nonzero
value `p` is seen at read `k` (`1 ≤ k ≤ 80`), `enable` makes exactly `k` reads,
calls `OpenProcess` exactly once, for `p`, with the terminate, query-information
and synchronize rights, tracks the handle that call returned, and does the same
whatever the block would have held at later reads. -/
theorem enable_poll_one_shot :
    (∀ (env : Env) (s : ModuleState), (enable env s).2.countP Effect.isReadPid ≤ 80) ∧
    (∀ (env : Env) (s : ModuleState) (k p : Nat),
      ElevatedHandshakeReady env → 1 ≤ k → k ≤ 80 →
      (∀ j, j + 1 < k → env.pidRead j = 0) → env.pidRead (k - 1) = p → p ≠ 0 →
        (enable env s).2 =
          handshakePrefix env s ++ zeroPolls (k - 1) ++
            [Effect.sleep 50, Effect.readPid p,
             Effect.openProcess (PROCESS_TERMINATE ||| PROCESS_QUERY_INFORMATION ||| SYNCHRONIZE)
               false p,
             Effect.closeHandle (env.createFileMapping POWER_LAUNCHER_PID_SHARED_FILE
               SIZEOF_DWORD)] ∧
        (enable env s).2.countP Effect.isReadPid = k ∧
        (enable env s).2.countP Effect.isOpenProcess = 1 ∧
        (enable env s).1.m_hProcess =
          env.openProcess (PROCESS_TERMINATE ||| PROCESS_QUERY_INFORMATION ||| SYNCHRONIZE)
            false p ∧
        (∀ later : Nat → Nat, (∀ j, j < k → later j = env.pidRead j) →
          enable { env with pidRead := later } s = enable env s)) := by
  constructor
  · intro env s
    have hb := enable_poll_reads_le env NULL maxRetries 0
    simp only [maxRetries] at hb
    simp only [enable, enable_launch, enable_elevated, maxRetries]
    split_ifs <;> simp [List.countP_append, List.countP_cons, Effect.isReadPid, hb]
  · intro env s k p hready hk1 hk80 hz hr hp
    have key : ∀ e : Env, e.openProcess = env.openProcess →
        (∀ j, j < k → e.pidRead j = env.pidRead j) →
        enable_poll e NULL maxRetries 0 =
          (env.openProcess OPEN_PROCESS_ACCESS false p,
            zeroPolls (k - 1) ++ [Effect.sleep 50, Effect.readPid p,
              Effect.openProcess OPEN_PROCESS_ACCESS false p]) := by
      intro e ho hagree
      have := enable_poll_first_nonzero e NULL p hp (k - 1) maxRetries 0
        (by simp only [maxRetries]; omega)
        (fun j hj => by
          rw [Nat.zero_add, hagree j (by omega)]; exact hz j (by omega))
        (by rw [Nat.zero_add, hagree (k - 1) (by omega)]; exact hr)
      rw [this, ho]
    have hpoll := key env rfl (fun _ _ => rfl)
    have hen := enable_elevated_ready env s hready
    rw [hpoll] at hen
    have hacc : PROCESS_TERMINATE ||| PROCESS_QUERY_INFORMATION ||| SYNCHRONIZE =
        OPEN_PROCESS_ACCESS := rfl
    rw [hacc]
    refine ⟨?_, ?_, ?_, ?_, ?_⟩
    · rw [hen]; simp [List.append_assoc]
    · rw [hen]
      simp [List.countP_append, zeroPolls_countP_isReadPid, handshakePrefix, Effect.isReadPid]
      omega
    · rw [hen]
      simp [List.countP_append, zeroPolls_countP_isOpenProcess, handshakePrefix,
        Effect.isOpenProcess]
    · rw [hen]
    · intro later hagree
      have hready2 : ElevatedHandshakeReady { env with pidRead := later } := hready
      have hpoll2 := key { env with pidRead := later } rfl hagree
      rw [hen, enable_elevated_ready _ s hready2, hpoll2]
      rfl

theorem enable_poll_one_shot_witness :
    (enable exampleEnvPublishing exampleStateDisabled).2.countP Effect.isReadPid = 3 ∧
    (enable exampleEnvPublishing exampleStateDisabled).1.m_hProcess = 4243 :=
  have h := enable_poll_one_shot.2 exampleEnvPublishing exampleStateDisabled 3 4242
    (by decide) (by decide) (by decide)
    (fun j hj => by
      have : j ≠ 2 := by omega
      simp [exampleEnvPublishing, this])
    rfl (by decide)
  ⟨h.2.1, h.2.2.2.1⟩

/-! ## C1: `get_hotkeys` -/

/-- C1: `get_hotkeys` returns 0 exactly when the key code of the current
descriptor is 0 and otherwise returns 1; when it returns 1 and the caller passed
a non-null buffer with room for at least one entry, the first entry of the buffer
is the current descriptor and the other entries are as before; with key code 0
the buffer is not written.  The module state is the same after the call. -/
theorem get_hotkeys_contract (s : ModuleState) (hotkeys : Option (List Hotkey))
    (buffer_size : Nat) :
    ((get_hotkeys s hotkeys buffer_size).count = 0 ↔ s.m_hotkey.key = 0) ∧
    (s.m_hotkey.key ≠ 0 →
      (get_hotkeys s hotkeys buffer_size).count = 1 ∧
      ∀ buf, hotkeys = some buf → 1 ≤ buf.length → 1 ≤ buffer_size →
        (get_hotkeys s hotkeys buffer_size).hotkeys = some (s.m_hotkey :: buf.tail)) ∧
    (s.m_hotkey.key = 0 → (get_hotkeys s hotkeys buffer_size).hotkeys = hotkeys) ∧
    (get_hotkeys s hotkeys buffer_size).state = s := by
  unfold get_hotkeys
  by_cases hk : s.m_hotkey.key = 0
  · simp [hk]
  · cases hotkeys with
    | none => simp [hk]
    | some buf =>
      by_cases hb : buffer_size ≥ 1
      · refine ⟨by simp [hk, hb], fun _ => ⟨by simp [hk, hb], ?_⟩, fun h => absurd h hk,
          by simp [hk, hb]⟩
        intro b hb2 hlen _
        cases hb2
        cases buf with
        | nil => simp at hlen
        | cons x xs => simp [hk, hb]
      · refine ⟨by simp [hk, hb], fun _ => ⟨by simp [hk, hb], ?_⟩, fun h => absurd h hk,
          by simp [hk, hb]⟩
        intro b _ _ h1
        exact absurd h1 hb

theorem get_hotkeys_contract_witness :
    (get_hotkeys exampleStateDisabled (some [exampleHotkeyUnbound, exampleHotkeyUnbound]) 2).count
      = 1 ∧
    (get_hotkeys exampleStateDisabled (some [exampleHotkeyUnbound, exampleHotkeyUnbound])
      2).hotkeys = some [exampleHotkeyWinSpace, exampleHotkeyUnbound] :=
  have h := (get_hotkeys_contract exampleStateDisabled
    (some [exampleHotkeyUnbound, exampleHotkeyUnbound]) 2).2.1 (by decide)
  ⟨h.1, h.2 [exampleHotkeyUnbound, exampleHotkeyUnbound] rfl (by decide) (by decide)⟩

/-! ## C4, C5, C8, C9: `on_hotkey` and `disable` -/

/-- C4: with the enabled flag false, `on_hotkey` returns false and makes no call
at all (no launch step, no `SetEvent`), and every field of the module state is
as before. -/
theorem on_hotkey_disabled (env : Env) (s : ModuleState) (hotkeyId : Nat)
    (hoff : s.m_enabled = false) :
    (on_hotkey env s hotkeyId).handled = false ∧
    (on_hotkey env s hotkeyId).trace = [] ∧
    (on_hotkey env s hotkeyId).state = s := by
  simp [on_hotkey, hoff]

theorem on_hotkey_disabled_witness :
    (on_hotkey exampleEnvExited exampleStateDisabled 0).handled = false ∧
    (on_hotkey exampleEnvExited exampleStateDisabled 0).trace = [] ∧
    (on_hotkey exampleEnvExited exampleStateDisabled 0).state = exampleStateDisabled :=
  on_hotkey_disabled exampleEnvExited exampleStateDisabled 0 rfl

/-- C5: after `disable`, `is_enabled` is false and the process handle, hotkey
descriptor and event handle are as before.  If the module was enabled, `disable`
resets the event and then calls `TerminateProcess` once on the tracked handle
(logging when that call fails); if it was disabled, the state is unchanged and
the only call is the log line.  So the event reset and the terminate call happen
exactly when the module was enabled, in particular after any `enable`. -/
theorem disable_contract (env : Env) (s : ModuleState) :
    is_enabled (disable env s).1 = false ∧
    (disable env s).1.m_hProcess = s.m_hProcess ∧
    (disable env s).1.m_hotkey = s.m_hotkey ∧
    (disable env s).1.m_hEvent = s.m_hEvent ∧
    (s.m_enabled = true →
      (disable env s).2 =
        [Effect.logInfo LOG_DISABLING, Effect.resetEvent s.m_hEvent,
         Effect.getProcessId s.m_hProcess, Effect.terminateProcess s.m_hProcess 1] ++
        (if env.terminateProcess s.m_hProcess 1 = true then []
         else [Effect.getLastError, Effect.logError LOG_NOT_TERMINATED])) ∧
    (s.m_enabled = false →
      (disable env s).1 = s ∧ (disable env s).2 = [Effect.logInfo LOG_DISABLING]) ∧
    ((disable env s).2.countP Effect.isTerminateProcess = if s.m_enabled = true then 1 else 0) ∧
    ((disable env s).2.countP Effect.isResetEvent = if s.m_enabled = true then 1 else 0) ∧
    (Effect.terminateProcess s.m_hProcess 1 ∈ (disable env s).2 ↔ s.m_enabled = true) ∧
    (Effect.resetEvent s.m_hEvent ∈ (disable env s).2 ↔ s.m_enabled = true) ∧
    (∀ (env1 : Env) (s1 : ModuleState), s = (enable env1 s1).1 →
      Effect.terminateProcess (enable env1 s1).1.m_hProcess 1 ∈ (disable env s).2) := by
  have hen : ∀ (env1 : Env) (s1 : ModuleState), (enable env1 s1).1.m_enabled = true :=
    fun env1 s1 => enable_sets_flag env1 s1
  have hlast : ∀ (env1 : Env) (s1 : ModuleState), s = (enable env1 s1).1 →
      s.m_enabled = true := fun env1 s1 h => h ▸ hen env1 s1
  have hmem : ∀ (env1 : Env) (s1 : ModuleState), s = (enable env1 s1).1 →
      Effect.terminateProcess (enable env1 s1).1.m_hProcess 1 ∈ (disable env s).2 := by
    intro env1 s1 h
    have h2 := hlast env1 s1 h
    rw [← h]
    cases ht : env.terminateProcess s.m_hProcess 1 <;>
      simp [disable, terminateProcess, h2, ht]
  refine ⟨?_, ?_, ?_, ?_, ?_, ?_, ?_, ?_, ?_, ?_, hmem⟩
  all_goals
    obtain ⟨en, hp, hk, he⟩ := s
    cases en <;> cases ht : env.terminateProcess hp 1 <;>
      simp [disable, terminateProcess, is_enabled, ht, Effect.isTerminateProcess,
        Effect.isResetEvent]

theorem disable_contract_witness :
    (disable exampleEnvPublishing exampleStateWithProcess).2 =
      [Effect.logInfo LOG_DISABLING, Effect.resetEvent 9, Effect.getProcessId 4243,
       Effect.terminateProcess 4243 1] ∧
    (disable exampleEnvPublishing exampleStateDisabled).1 = exampleStateDisabled :=
  ⟨(disable_contract exampleEnvPublishing exampleStateWithProcess).2.2.2.2.1 rfl,
   ((disable_contract exampleEnvPublishing exampleStateDisabled).2.2.2.2.2.1 rfl).1⟩

/-! ## C2, C3: `parse_hotkey` -/

theorem parse_hotkey_returns (settings : JsonObject) (hk : Hotkey) :
    (parse_hotkey settings hk).2 = Completion.returned := by
  unfold parse_hotkey
  split <;> rfl

theorem parse_hotkey_key_of_threw (settings : JsonObject) (hk : Hotkey)
    (h : (parse_hotkey_try settings hk).2 = Completion.threw) :
    (parse_hotkey settings hk).1.key = 0 := by
  unfold parse_hotkey
  split
  · next hk1 heq => rw [heq] at h; cases h
  · rfl

theorem GetNamedObject_eq_none (o : JsonObject) (name : String)
    (h : JsonObject.hasObject o name = false) : GetNamedObject o name = none := by
  unfold JsonObject.hasObject at h
  unfold GetNamedObject
  cases hl : lookupMember o name with
  | none => rfl
  | some v => cases v <;> simp_all

theorem GetNamedBoolean_eq_none (o : JsonObject) (name : String)
    (h : JsonObject.hasBoolean o name = false) : GetNamedBoolean o name = none := by
  unfold JsonObject.hasBoolean at h
  unfold GetNamedBoolean
  cases hl : lookupMember o name with
  | none => rfl
  | some v => cases v <;> simp_all

theorem GetNamedNumber_eq_none (o : JsonObject) (name : String)
    (h : JsonObject.hasNumber o name = false) : GetNamedNumber o name = none := by
  unfold JsonObject.hasNumber at h
  unfold GetNamedNumber
  cases hl : lookupMember o name with
  | none => rfl
  | some v => cases v <;> simp_all

theorem GetNamedObject_eq_some (o : JsonObject) (name : String) (f : JsonObject)
    (h : GetNamedObject o name = some f) : lookupMember o name = some (.object f) := by
  unfold GetNamedObject at h
  cases hl : lookupMember o name with
  | none => simp [hl] at h
  | some v => cases v <;> simp_all

theorem hasBoolean_of_some (o : JsonObject) (name : String) (b : Bool)
    (h : GetNamedBoolean o name = some b) : JsonObject.hasBoolean o name = true := by
  cases hb : JsonObject.hasBoolean o name
  · rw [GetNamedBoolean_eq_none o name hb] at h; cases h
  · rfl

theorem hasNumber_of_some (o : JsonObject) (name : String) (n : ℚ)
    (h : GetNamedNumber o name = some n) : JsonObject.hasNumber o name = true := by
  cases hb : JsonObject.hasNumber o name
  · rw [GetNamedNumber_eq_none o name hb] at h; cases h
  · rfl

theorem parse_hotkey_try_threw (settings : JsonObject) (hk : Hotkey)
    (hbad : malformedHotkeyJson settings = true) :
    (parse_hotkey_try settings hk).2 = Completion.threw := by
  unfold malformedHotkeyJson at hbad
  unfold parse_hotkey_try
  cases hp : GetNamedObject settings JSON_KEY_PROPERTIES with
  | none => rfl
  | some props =>
    rw [GetNamedObject_eq_some _ _ _ hp] at hbad
    simp only at hbad ⊢
    cases ho : GetNamedObject props JSON_KEY_OPEN_POWERLAUNCHER with
    | none => rfl
    | some o =>
      rw [GetNamedObject_eq_some _ _ _ ho] at hbad
      simp only at hbad ⊢
      cases hw : GetNamedBoolean o JSON_KEY_WIN with
      | none => rfl
      | some w =>
      simp only
      cases ha : GetNamedBoolean o JSON_KEY_ALT with
      | none => rfl
      | some a =>
      simp only
      cases hs : GetNamedBoolean o JSON_KEY_SHIFT with
      | none => rfl
      | some sh =>
      simp only
      cases hc : GetNamedBoolean o JSON_KEY_CTRL with
      | none => rfl
      | some c =>
      simp only
      cases hn : GetNamedNumber o JSON_KEY_CODE with
      | none => rfl
      | some n =>
        exfalso
        simp [hasBoolean_of_some _ _ _ hw, hasBoolean_of_some _ _ _ ha,
          hasBoolean_of_some _ _ _ hs, hasBoolean_of_some _ _ _ hc,
          hasNumber_of_some _ _ _ hn] at hbad

/-- C2: for a settings payload that is malformed or partially populated
(`properties` or `open_powerlauncher` missing or not an object, or any of `win`,
`alt`, `ctrl`, `shift`, `code` missing or of the wrong type) and any prior
descriptor, `parse_hotkey` returns normally with key code 0, and `get_hotkeys`
on a module holding that descriptor returns 0. -/
theorem parse_hotkey_malformed (settings : JsonObject) (hk : Hotkey)
    (hbad : malformedHotkeyJson settings = true) :
    (parse_hotkey settings hk).2 = Completion.returned ∧
    (parse_hotkey settings hk).1.key = 0 ∧
    ∀ (s : ModuleState) (hotkeys : Option (List Hotkey)) (buffer_size : Nat),
      (get_hotkeys { s with m_hotkey := (parse_hotkey settings hk).1 } hotkeys
        buffer_size).count = 0 := by
  have hkey := parse_hotkey_key_of_threw settings hk (parse_hotkey_try_threw settings hk hbad)
  refine ⟨parse_hotkey_returns settings hk, hkey, ?_⟩
  intro s hotkeys buffer_size
  simp [get_hotkeys, hkey]

theorem parse_hotkey_malformed_witness :
    (parse_hotkey exampleSettingsNoHotkey exampleHotkeyWinSpace).2 = Completion.returned ∧
    (parse_hotkey exampleSettingsNoHotkey exampleHotkeyWinSpace).1.key = 0 :=
  have h := parse_hotkey_malformed exampleSettingsNoHotkey exampleHotkeyWinSpace (by decide)
  ⟨h.1, h.2.1⟩

theorem truncToInt_of_nonneg (d : ℚ) (h0 : 0 ≤ d) : truncToInt d = Int.floor d := by
  simp [truncToInt, h0]

theorem static_cast_uchar_in_range (d : ℚ) (h0 : 0 ≤ d) (h1 : d < 256) :
    static_cast_uchar d = (Int.floor d).toNat := by
  have hf0 : 0 ≤ Int.floor d := Int.floor_nonneg.mpr h0
  have hf1 : Int.floor d < 256 := by
    have : (Int.floor d : ℚ) ≤ d := Int.floor_le d
    have h2 : (Int.floor d : ℚ) < ((256 : Int) : ℚ) := by push_cast; linarith
    exact_mod_cast h2
  unfold static_cast_uchar
  rw [truncToInt_of_nonneg d h0, Int.emod_eq_of_lt hf0 hf1]

theorem static_cast_uchar_natCast (k : Nat) (hk : k < 256) :
    static_cast_uchar (k : ℚ) = k := by
  have h1 : ((k : ℚ)) < 256 := by exact_mod_cast hk
  rw [static_cast_uchar_in_range _ (Nat.cast_nonneg k) h1]
  simp

theorem parse_hotkey_of_fields (settings props o : JsonObject) (hk : Hotkey)
    (w a c sh : Bool) (n : ℚ)
    (hprops : lookupMember settings JSON_KEY_PROPERTIES = some (.object props))
    (hobj : lookupMember props JSON_KEY_OPEN_POWERLAUNCHER = some (.object o))
    (hwin : lookupMember o JSON_KEY_WIN = some (.boolean w))
    (halt : lookupMember o JSON_KEY_ALT = some (.boolean a))
    (hctrl : lookupMember o JSON_KEY_CTRL = some (.boolean c))
    (hshift : lookupMember o JSON_KEY_SHIFT = some (.boolean sh))
    (hcode : lookupMember o JSON_KEY_CODE = some (.number n)) :
    parse_hotkey settings hk =
      ({ win := w, ctrl := c, shift := sh, alt := a, key := static_cast_uchar n },
        Completion.returned) := by
  simp [parse_hotkey, parse_hotkey_try, GetNamedObject, GetNamedBoolean, GetNamedNumber,
    hprops, hobj, hwin, halt, hctrl, hshift, hcode]

/-- C3 (as stated) fails: the payload of the spec scenario with `code` 32.5 has
boolean `win`, `alt`, `ctrl`, `shift` and a numeric `code`, yet the key code
stored by `parse_hotkey` is 32, which is not the given number. -/
theorem parse_hotkey_fractional_code_counterexample :
    malformedHotkeyJson (exampleSettings (65 / 2)) = false ∧
    GetNamedNumber
      [("win", .boolean true), ("alt", .boolean false), ("ctrl", .boolean false),
       ("shift", .boolean false), ("code", .number (65 / 2))] JSON_KEY_CODE = some (65 / 2) ∧
    parse_hotkey (exampleSettings (65 / 2)) exampleHotkeyUnbound =
      ({ win := true, ctrl := false, shift := false, alt := false, key := 32 },
        Completion.returned) ∧
    (((parse_hotkey (exampleSettings (65 / 2)) exampleHotkeyUnbound).1.key : ℚ) ≠ 65 / 2) := by
  have hcast : static_cast_uchar (65 / 2) = 32 := by
    rw [static_cast_uchar_in_range _ (by norm_num) (by norm_num)]
    have : Int.floor (65 / 2 : ℚ) = 32 := by
      rw [Int.floor_eq_iff]; constructor <;> norm_num
    rw [this]; rfl
  have hparse := parse_hotkey_of_fields (exampleSettings (65 / 2)) _ _ exampleHotkeyUnbound
    true false false false (65 / 2) rfl rfl rfl rfl rfl rfl rfl
  rw [hcast] at hparse
  refine ⟨by rfl, by rfl, hparse, ?_⟩
  rw [hparse]
  norm_num

/-- C3 (amended): for a settings payload whose `properties.open_powerlauncher`
object has boolean `win`, `alt`, `ctrl`, `shift` and a numeric `code` `n` with
`0 ≤ n < 256`, and any prior descriptor, `parse_hotkey` returns normally and
replaces the descriptor by those four booleans and the key code `n` truncated
toward zero; the key code is `n` itself when `n` is a whole number.  When that
key code is not 0, `get_hotkeys` then returns 1 entry holding these values. -/
theorem parse_hotkey_wellformed (settings props o : JsonObject) (hk : Hotkey)
    (w a c sh : Bool) (n : ℚ)
    (hprops : lookupMember settings JSON_KEY_PROPERTIES = some (.object props))
    (hobj : lookupMember props JSON_KEY_OPEN_POWERLAUNCHER = some (.object o))
    (hwin : lookupMember o JSON_KEY_WIN = some (.boolean w))
    (halt : lookupMember o JSON_KEY_ALT = some (.boolean a))
    (hctrl : lookupMember o JSON_KEY_CTRL = some (.boolean c))
    (hshift : lookupMember o JSON_KEY_SHIFT = some (.boolean sh))
    (hcode : lookupMember o JSON_KEY_CODE = some (.number n))
    (hlo : 0 ≤ n) (hhi : n < 256) :
    parse_hotkey settings hk =
      ({ win := w, ctrl := c, shift := sh, alt := a, key := (Int.floor n).toNat },
        Completion.returned) ∧
    (∀ k : Nat, n = (k : ℚ) → (parse_hotkey settings hk).1.key = k) ∧
    (∀ (s : ModuleState) (buf : List Hotkey) (buffer_size : Nat),
      (Int.floor n).toNat ≠ 0 → 1 ≤ buf.length → 1 ≤ buffer_size →
      (get_hotkeys { s with m_hotkey := (parse_hotkey settings hk).1 } (some buf)
        buffer_size).count = 1 ∧
      (get_hotkeys { s with m_hotkey := (parse_hotkey settings hk).1 } (some buf)
        buffer_size).hotkeys =
        some ({ win := w, ctrl := c, shift := sh, alt := a, key := (Int.floor n).toNat }
          :: buf.tail)) := by
  have hparse := parse_hotkey_of_fields settings props o hk w a c sh n hprops hobj hwin halt
    hctrl hshift hcode
  rw [static_cast_uchar_in_range n hlo hhi] at hparse
  refine ⟨hparse, ?_, ?_⟩
  · intro k hk2
    rw [hparse, hk2]
    simp
  · intro s buf buffer_size hne hlen hsz
    rw [hparse]
    cases buf with
    | nil => simp at hlen
    | cons x xs => simp [get_hotkeys, hne, hsz]

theorem parse_hotkey_wellformed_witness :
    parse_hotkey (exampleSettings 32) exampleHotkeyUnbound =
      (exampleHotkeyWinSpace, Completion.returned) := by
  have h := (parse_hotkey_wellformed (exampleSettings 32) _ _ exampleHotkeyUnbound
    true false false false 32 rfl rfl rfl rfl rfl rfl rfl (by norm_num) (by norm_num)).1
  have hf : (Int.floor (32 : ℚ)).toNat = 32 := by
    have : Int.floor (32 : ℚ) = 32 := by
      rw [Int.floor_eq_iff]; constructor <;> norm_num
    rw [this]; rfl
  rw [hf] at h
  exact h

/-! ## C8, C9: `on_hotkey` while enabled -/

theorem enable_no_setEvent (env : Env) (s : ModuleState) :
    (enable env s).2.countP Effect.isSetEvent = 0 := by
  have hb := enable_poll_no_setEvent env NULL maxRetries 0
  simp only [enable, enable_launch, enable_elevated]
  split_ifs <;>
    simp [List.countP_append, List.countP_cons, Effect.isSetEvent, hb, -List.countP_eq_zero]

theorem enable_logs_first (env : Env) (s : ModuleState) :
    Effect.logInfo LOG_ENABLING ∈ (enable env s).2 := by
  unfold enable
  split <;> simp

theorem enable_keeps_event (env : Env) (s : ModuleState) :
    (enable env s).1.m_hEvent = s.m_hEvent := by
  unfold enable
  split <;> rfl

/-- C9: with the enabled flag true, `on_hotkey` returns true and calls `SetEvent`
exactly once, as its last call, whatever the wait on the tracked handle and the
launch steps answer.  If the zero-timeout wait returns `WAIT_OBJECT_0` the whole
of `enable` runs between the wait and the `SetEvent`; otherwise nothing runs in
between and the state is unchanged.  So `enable` is re-run exactly when the wait
reports the process as signaled. -/
theorem on_hotkey_enabled (env : Env) (s : ModuleState) (hotkeyId : Nat)
    (hon : s.m_enabled = true) :
    (on_hotkey env s hotkeyId).handled = true ∧
    (on_hotkey env s hotkeyId).trace.countP Effect.isSetEvent = 1 ∧
    (env.waitForSingleObject s.m_hProcess 0 = WAIT_OBJECT_0 →
      (on_hotkey env s hotkeyId).state = (enable env s).1 ∧
      (on_hotkey env s hotkeyId).trace =
        [Effect.waitForSingleObject s.m_hProcess 0] ++ (enable env s).2 ++
          [Effect.setEvent s.m_hEvent]) ∧
    (env.waitForSingleObject s.m_hProcess 0 ≠ WAIT_OBJECT_0 →
      (on_hotkey env s hotkeyId).state = s ∧
      (on_hotkey env s hotkeyId).trace =
        [Effect.waitForSingleObject s.m_hProcess 0, Effect.setEvent s.m_hEvent]) ∧
    (Effect.logInfo LOG_ENABLING ∈ (on_hotkey env s hotkeyId).trace ↔
      env.waitForSingleObject s.m_hProcess 0 = WAIT_OBJECT_0) := by
  by_cases hw : env.waitForSingleObject s.m_hProcess 0 = WAIT_OBJECT_0
  · have hno := enable_no_setEvent env s
    have hlog := enable_logs_first env s
    have hev := enable_keeps_event env s
    simp [on_hotkey, hon, hw, List.countP_append, hno, hlog, hev, Effect.isSetEvent]
  · simp [on_hotkey, hon, hw, Effect.isSetEvent]

theorem on_hotkey_enabled_witness :
    (on_hotkey exampleEnvExited exampleStateWithProcess 0).handled = true ∧
    (on_hotkey exampleEnvExited exampleStateWithProcess 0).state = 
      (enable exampleEnvExited exampleStateWithProcess).1 :=
  have h := on_hotkey_enabled exampleEnvExited exampleStateWithProcess 0 rfl
  ⟨h.1, (h.2.2.1 rfl).1⟩

/-- C8 (as stated) fails: the state left by an `enable` whose handshake timed out
is enabled with a null process handle, the wait on the null handle returns
`WAIT_FAILED`, and `on_hotkey` then only waits and signals the event: no step of
`enable` runs and the handle stays null, although a launch would have produced a
process handle. -/
theorem null_handle_wait_failed_counterexample :
    exampleStateTimedOut.m_enabled = true ∧
    exampleStateTimedOut.m_hProcess = NULL ∧
    exampleEnvPublishing.waitForSingleObject NULL 0 = WAIT_FAILED ∧
    (on_hotkey exampleEnvPublishing exampleStateTimedOut 0).trace =
      [Effect.waitForSingleObject NULL 0, Effect.setEvent 9] ∧
    Effect.logInfo LOG_ENABLING ∉ (on_hotkey exampleEnvPublishing exampleStateTimedOut 0).trace ∧
    (on_hotkey exampleEnvPublishing exampleStateTimedOut 0).state.m_hProcess = NULL ∧
    (enable exampleEnvPublishing exampleStateTimedOut).1.m_hProcess = 4243 ∧
    (on_hotkey exampleEnvPublishing exampleStateTimedOut 0).state ≠
      (enable exampleEnvPublishing exampleStateTimedOut).1 ∧
    (on_hotkey exampleEnvPublishing exampleStateTimedOut 0).trace ≠
      [Effect.waitForSingleObject NULL 0] ++
        (enable exampleEnvPublishing exampleStateTimedOut).2 ++ [Effect.setEvent 9] := by
  decide

/-- C8 (amended): for a module state that is enabled with a null process handle,
where the zero-timeout wait on the null handle reports failure rather than
signaled, `on_hotkey` returns true, does not run any step of `enable`, calls
`SetEvent` once after the wait, and leaves the state as it was, the handle still
null. -/
theorem on_hotkey_null_handle (env : Env) (s : ModuleState) (hotkeyId : Nat)
    (hon : s.m_enabled = true) (hnull : s.m_hProcess = NULL)
    (hwait : env.waitForSingleObject NULL 0 = WAIT_FAILED) :
    (on_hotkey env s hotkeyId).handled = true ∧
    (on_hotkey env s hotkeyId).trace =
      [Effect.waitForSingleObject NULL 0, Effect.setEvent s.m_hEvent] ∧
    Effect.logInfo LOG_ENABLING ∉ (on_hotkey env s hotkeyId).trace ∧
    (on_hotkey env s hotkeyId).state = s ∧
    (on_hotkey env s hotkeyId).state.m_hProcess = NULL := by
  have hne : WAIT_FAILED ≠ WAIT_OBJECT_0 := by decide
  simp [on_hotkey, hon, hnull, hwait, hne]

theorem on_hotkey_null_handle_witness :
    (on_hotkey exampleEnvPublishing exampleStateNoProcess 0).trace =
      [Effect.waitForSingleObject NULL 0, Effect.setEvent 9] ∧
    (on_hotkey exampleEnvPublishing exampleStateNoProcess 0).state = exampleStateNoProcess :=
  have h := on_hotkey_null_handle exampleEnvPublishing exampleStateNoProcess 0 rfl rfl rfl
  ⟨h.2.1, h.2.2.2.1⟩

end Launcher
